import Mathlib

/-!
Verification of the scope-validation core of the repository.

The program under study is a pre-commit policy gate: from a list of file
paths and a free-text description it computes an approval decision with a
scope tier and advisory warnings, or raises a structured scope violation
when more than 10 files are touched.  The logic lives twice in the
repository, in `src/scope_validator.py` (function `analyze_scope`) and in
`src/integration_specialist_tool.py` (function `_analyze_scope_impl`).

Strings are modelled as lists of characters (`Str`).  Python's string
operations used by the code are embedded as executable Lean functions:
substring containment (`hasSub`, Python's `in`), lower-casing (`pyLower`,
Python's `str.lower`, restricted to the ASCII letters that all keyword
constants consist of), and splitting on `/` (`splitSlash`, Python's
`str.split('/')`).  Warning messages are modelled structurally: each
distinct message built by the code becomes a constructor of `Warning`
carrying exactly the data the code interpolates into the message text.
-/

deriving instance DecidableEq for Except

/-- Strings are modelled as lists of characters. -/
abbrev Str := List Char

/-- Coerce a Lean string literal into the `Str` model. -/
def str (s : String) : Str := s.data

/-- Test whether the first list is a leading segment of the second
(used to implement substring containment). -/
def leadsWith : Str → Str → Bool
  | [], _ => true
  | _ :: _, [] => false
  | a :: as, b :: bs => a = b && leadsWith as bs

/-- Python's substring operator: `hasSub needle hay` embeds
`needle in hay` for Python strings. -/
def hasSub (needle : Str) : Str → Bool
  | [] => leadsWith needle []
  | c :: t => leadsWith needle (c :: t) || hasSub needle t

/-- ASCII lower-casing of one character, the character-level action of
Python's `str.lower` on the ASCII range (all keyword constants of the
program are ASCII). -/
def lowerChar (c : Char) : Char :=
  if 65 ≤ c.toNat ∧ c.toNat ≤ 90 then Char.ofNat (c.toNat + 32) else c

/-- Python's `str.lower`, embedded on the ASCII range. -/
def pyLower (s : Str) : Str := s.map lowerChar

/-- Python's `str.split('/')`: the list of `/`-separated segments.
Like Python's split, the result is never empty (`splitSlash [] = [[]]`). -/
def splitSlash : Str → List Str
  | [] => [[]]
  | c :: t =>
    let r := splitSlash t
    if c = '/' then [] :: r else (c :: r.headI) :: r.tail

theorem splitSlash_ne_nil (s : Str) : splitSlash s ≠ [] := by
  cases s with
  | nil => simp [splitSlash]
  | cons c t =>
    simp only [splitSlash]
    split <;> simp

theorem splitSlash_length_gt_one_iff (s : Str) :
    1 < (splitSlash s).length ↔ '/' ∈ s := by
  induction s with
  | nil => simp [splitSlash]
  | cons c t ih =>
    simp only [splitSlash]
    by_cases hc : c = '/'
    · subst hc
      have := splitSlash_ne_nil t
      simp [List.length_pos.mpr this]
    · have hne := splitSlash_ne_nil t
      rw [if_neg hc]
      have hlen : ((c :: (splitSlash t).headI) :: (splitSlash t).tail).length
          = (splitSlash t).length := by
        cases h : splitSlash t with
        | nil => exact absurd h hne
        | cons a r => simp [h]
      rw [hlen, ih, List.mem_cons]
      constructor
      · exact Or.inr
      · rintro (h | h)
        · exact absurd h.symm hc
        · exact h

theorem splitSlash_headI (s : Str) :
    (splitSlash s).headI = s.takeWhile (fun c => c ≠ '/') := by
  induction s with
  | nil => simp [splitSlash]
  | cons c t ih =>
    simp only [splitSlash, List.takeWhile]
    by_cases hc : c = '/'
    · subst hc; simp
    · simp [hc, ih]

/-- One step of the top-level-directory collection of anti-pattern check 2:
`parts = f.split('/'); if len(parts) > 1: top_dirs.add(parts[0])`.
Python's set is modelled as a duplicate-free list in insertion order
(the code only ever uses the set's size and its sorted listing). -/
def topDirsStep (acc : List Str) (f : Str) : List Str :=
  if 1 < (splitSlash f).length then
    if (splitSlash f).headI ∈ acc then acc else acc ++ [(splitSlash f).headI]
  else acc

/-- The set `top_dirs` of anti-pattern check 2, as a duplicate-free list. -/
def topDirs (files : List Str) : List Str := files.foldl topDirsStep []

theorem mem_foldl_topDirsStep (files : List Str) (acc : List Str) (t : Str) :
    t ∈ files.foldl topDirsStep acc ↔
      t ∈ acc ∨ ∃ f ∈ files, 1 < (splitSlash f).length ∧ t = (splitSlash f).headI := by
  induction files generalizing acc with
  | nil => simp
  | cons f fs ih =>
    rw [List.foldl_cons, ih]
    have hstep : t ∈ topDirsStep acc f ↔
        t ∈ acc ∨ (1 < (splitSlash f).length ∧ t = (splitSlash f).headI) := by
      unfold topDirsStep
      split
      · split
        · constructor
          · exact Or.inl
          · rintro (h | ⟨-, rfl⟩)
            · exact h
            · assumption
        · simp only [List.mem_append, List.mem_singleton]
          constructor
          · rintro (h | rfl)
            · exact Or.inl h
            · exact Or.inr ⟨by assumption, rfl⟩
          · rintro (h | ⟨-, rfl⟩)
            · exact Or.inl h
            · exact Or.inr rfl
      · constructor
        · exact Or.inl
        · rintro (h | ⟨h1, rfl⟩)
          · exact h
          · omega
    rw [hstep]
    simp only [List.mem_cons]
    constructor
    · rintro ((h | h) | ⟨g, hg, h⟩)
      · exact Or.inl h
      · exact Or.inr ⟨f, Or.inl rfl, h⟩
      · exact Or.inr ⟨g, Or.inr hg, h⟩
    · rintro (h | ⟨g, (rfl | hg), h⟩)
      · exact Or.inl (Or.inl h)
      · exact Or.inl (Or.inr h)
      · exact Or.inr ⟨g, hg, h⟩

theorem mem_topDirs_iff (files : List Str) (t : Str) :
    t ∈ topDirs files ↔
      ∃ f ∈ files, ('/' ∈ f) ∧ t = f.takeWhile (fun c => c ≠ '/') := by
  rw [topDirs, mem_foldl_topDirsStep]
  simp only [List.not_mem_nil, false_or]
  constructor
  · rintro ⟨f, hf, hlen, rfl⟩
    exact ⟨f, hf, (splitSlash_length_gt_one_iff f).mp hlen, (splitSlash_headI f).symm ▸ rfl⟩
  · rintro ⟨f, hf, hmem, rfl⟩
    exact ⟨f, hf, (splitSlash_length_gt_one_iff f).mpr hmem, (splitSlash_headI f).symm⟩

theorem nodup_foldl_topDirsStep (files : List Str) (acc : List Str)
    (h : acc.Nodup) : (files.foldl topDirsStep acc).Nodup := by
  induction files generalizing acc with
  | nil => simpa
  | cons f fs ih =>
    rw [List.foldl_cons]
    apply ih
    unfold topDirsStep
    split
    · split
      · exact h
      · simp [List.nodup_append, h]
        assumption
    · exact h

theorem nodup_topDirs (files : List Str) : (topDirs files).Nodup :=
  nodup_foldl_topDirsStep files [] List.nodup_nil

/-- Lexicographic comparison of strings by character code point, the order
used by Python's `sorted` on strings. -/
def strLe : Str → Str → Bool
  | [], _ => true
  | _ :: _, [] => false
  | a :: as, b :: bs => if a = b then strLe as bs else decide (a < b)

theorem strLe_total : ∀ a b : Str, strLe a b = true ∨ strLe b a = true
  | [], _ => Or.inl rfl
  | _ :: _, [] => Or.inr rfl
  | a :: as, b :: bs => by
    by_cases hab : a = b
    · subst hab
      simpa [strLe] using strLe_total as bs
    · rcases lt_or_gt_of_ne hab with h | h
      · exact Or.inl (by simp [strLe, hab, h])
      · exact Or.inr (by simp [strLe, Ne.symm hab, h])

theorem strLe_trans : ∀ a b c : Str,
    strLe a b = true → strLe b c = true → strLe a c = true
  | [], _, _, _, _ => rfl
  | _ :: _, [], _, hab, _ => by simp [strLe] at hab
  | _ :: _, _ :: _, [], _, hbc => by simp [strLe] at hbc
  | a :: as, b :: bs, c :: cs, hab, hbc => by
    by_cases h1 : a = b <;> by_cases h2 : b = c
    · subst h1; subst h2
      simp only [strLe, if_pos rfl] at *
      exact strLe_trans as bs cs hab hbc
    · subst h1
      simp [strLe, h2] at hbc ⊢
      simp [hbc]
    · subst h2
      simp [strLe, h1] at hab ⊢
      simp [hab]
    · simp [strLe, h1, h2] at hab hbc
      have hac : a < c := lt_trans hab hbc
      simp [strLe, ne_of_lt hac, hac]

instance : IsTotal Str (fun a b => strLe a b = true) := ⟨strLe_total⟩

instance : IsTrans Str (fun a b => strLe a b = true) := ⟨strLe_trans⟩

/-- Python's `sorted` on a list of strings: a sorted permutation with
respect to the lexicographic order `strLe`. -/
def sortStr (l : List Str) : List Str :=
  List.insertionSort (fun a b => strLe a b = true) l

theorem sortStr_perm (l : List Str) : (sortStr l).Perm l :=
  List.perm_insertionSort _ l

theorem sortStr_sorted (l : List Str) :
    (sortStr l).Sorted (fun a b => strLe a b = true) :=
  List.sorted_insertionSort _ l

/-- The scope tiers that can appear in an approved decision
(`SYSTEMIC` never materialises: more than 10 files raises instead). -/
inductive ScopeTier where
  | LOCAL
  | MODERATE
  | EXTENSIVE
deriving DecidableEq, Repr

/-- A warning message, modelled structurally: each constructor is one of
the distinct message shapes built by the code, carrying exactly the data
interpolated into the message text. -/
inductive Warning where
  /-- The scope-level advisory `scope_message` inserted at position 0 for
  MODERATE and EXTENSIVE tiers. -/
  | scopeAdvisory (tier : ScopeTier)
  /-- Check 1: infrastructure files modified for a UI issue; carries
  `infra_found`, the matched files in input order. -/
  | infraForUI (matchedFiles : List Str)
  /-- Check 2: changes span more than 3 top-level modules; carries
  `len(top_dirs)` and `sorted(top_dirs)`. -/
  | crossModule (moduleCount : Nat) (modulesSorted : List Str)
  /-- Check 3: complex abstractions for a simple fix; carries the matched
  complexity keywords in keyword-list order. -/
  | complexityForSimpleFix (matchedKeywords : List Str)
deriving DecidableEq, Repr

/-- The structured fields of `ScopeViolationError` in `scope_validator.py`
(`file_count`, `max_allowed`; the message text is presentation). -/
structure ScopeViolationError where
  file_count : Nat
  max_allowed : Nat
deriving DecidableEq, Repr

/-- The decision dict returned by `analyze_scope` on the approval path. -/
structure ScopeDecision where
  approved : Bool
  scope_level : ScopeTier
  file_count : Nat
  warnings : List Warning
  files : List Str
deriving DecidableEq, Repr

namespace ScopeValidator

/-- The constant `INFRASTRUCTURE_FILES` of `src/scope_validator.py`
(lines 24-36), in source order. -/
def INFRASTRUCTURE_FILES : List Str :=
  [str ("Dockerfile"),
   str ("docker-compose.yml"),
   str ("docker-compose.yaml"),
   str ("nginx.conf"),
   str (".k8s/"),
   str ("kubernetes/"),
   str ("terraform/"),
   str (".tf"),
   str (".github/workflows/"),
   str ("Jenkinsfile"),
   str (".circleci/")]

/-- The inline UI keyword list of check 1 (line 59). -/
def ui_keywords : List Str :=
  [str ("ui"), str ("css"), str ("style"), str ("button"), str ("layout")]

/-- The constant `complexity_keywords` (line 82). -/
def complexity_keywords : List Str :=
  [str ("factory"), str ("manager"), str ("handler"),
   str ("builder"), str ("strategy"), str ("adapter")]

/-- The constant `simple_fix_keywords` (line 83). -/
def simple_fix_keywords : List Str :=
  [str ("fix"), str ("bug"), str ("typo"), str ("minor")]

/-- The comprehension `infra_found` of check 1 (line 60): the input files
that contain some infrastructure marker as a substring, in input order. -/
def infra_found (files : List Str) : List Str :=
  files.filter (fun f => INFRASTRUCTURE_FILES.any (fun infra => hasSub infra f))

/-- Check 1 of `detect_anti_patterns` (lines 57-66): infrastructure files
modified for a UI issue.  Takes the already lower-cased description. -/
def check1 (files : List Str) (desc_lower : Str) : List Warning :=
  if ui_keywords.any (fun keyword => hasSub keyword desc_lower) then
    if (infra_found files).isEmpty then []
    else [Warning.infraForUI (infra_found files)]
  else []

/-- Check 2 of `detect_anti_patterns` (lines 68-79): changes spanning more
than 3 top-level directories. -/
def check2 (files : List Str) : List Warning :=
  if 3 < (topDirs files).length then
    [Warning.crossModule (topDirs files).length (sortStr (topDirs files))]
  else []

/-- Check 3 of `detect_anti_patterns` (lines 81-92): complex abstractions
for a simple fix.  Takes the already lower-cased description. -/
def check3 (desc_lower : Str) : List Warning :=
  if complexity_keywords.any (fun kw => hasSub kw desc_lower) &&
      simple_fix_keywords.any (fun kw => hasSub kw desc_lower) then
    [Warning.complexityForSimpleFix
      (complexity_keywords.filter (fun kw => hasSub kw desc_lower))]
  else []

/-- The function `detect_anti_patterns` of `src/scope_validator.py`
(lines 39-94): the three checks run in order on the same inputs and their
warnings are concatenated. -/
def detect_anti_patterns (files : List Str) (description : Str) : List Warning :=
  check1 files (pyLower description) ++ check2 files ++ check3 (pyLower description)

/-- The function `analyze_scope` of `src/scope_validator.py`
(lines 97-157): raises `ScopeViolationError` for more than 10 files,
otherwise assigns the tier by file count, runs the anti-pattern detection,
inserts the scope advisory at position 0 for MODERATE and EXTENSIVE, and
returns the decision dict. -/
def analyze_scope (files : List Str) (description : Str) :
    Except ScopeViolationError ScopeDecision :=
  let file_count := files.length
  if 10 < file_count then
    Except.error { file_count := file_count, max_allowed := 10 }
  else
    let scope_level :=
      if file_count ≤ 3 then ScopeTier.LOCAL
      else if file_count ≤ 5 then ScopeTier.MODERATE
      else ScopeTier.EXTENSIVE
    let warnings := detect_anti_patterns files description
    let warnings :=
      if scope_level = ScopeTier.MODERATE ∨ scope_level = ScopeTier.EXTENSIVE then
        Warning.scopeAdvisory scope_level :: warnings
      else warnings
    Except.ok { approved := true, scope_level := scope_level,
                file_count := file_count, warnings := warnings, files := files }

end ScopeValidator

namespace IntegrationTool

/-- The constant `INFRASTRUCTURE_FILES` of
`src/integration_specialist_tool.py` (lines 25-37), in source order. -/
def INFRASTRUCTURE_FILES : List Str :=
  [str ("Dockerfile"),
   str ("docker-compose.yml"),
   str ("docker-compose.yaml"),
   str ("nginx.conf"),
   str (".k8s/"),
   str ("kubernetes/"),
   str ("terraform/"),
   str (".tf"),
   str (".github/workflows/"),
   str ("Jenkinsfile"),
   str (".circleci/")]

/-- The inline UI keyword list of check 1 (line 60). -/
def ui_keywords : List Str :=
  [str ("ui"), str ("css"), str ("style"), str ("button"), str ("layout")]

/-- The constant `complexity_keywords` (line 83). -/
def complexity_keywords : List Str :=
  [str ("factory"), str ("manager"), str ("handler"),
   str ("builder"), str ("strategy"), str ("adapter")]

/-- The constant `simple_fix_keywords` (line 84). -/
def simple_fix_keywords : List Str :=
  [str ("fix"), str ("bug"), str ("typo"), str ("minor")]

/-- The structured fields of `ScopeViolationError` in
`src/integration_specialist_tool.py` (lines 15-21). -/
structure ScopeViolationError where
  file_count : Nat
  max_allowed : Nat
deriving DecidableEq, Repr

/-- The function `detect_anti_patterns` of
`src/integration_specialist_tool.py` (lines 40-95); the three checks are
written inline, as in the source. -/
def detect_anti_patterns (files : List Str) (description : Str) : List Warning :=
  let desc_lower := pyLower description
  let infra_found :=
    files.filter (fun f => INFRASTRUCTURE_FILES.any (fun infra => hasSub infra f))
  let w1 :=
    if ui_keywords.any (fun keyword => hasSub keyword desc_lower) then
      if infra_found.isEmpty then [] else [Warning.infraForUI infra_found]
    else []
  let w2 :=
    if 3 < (topDirs files).length then
      [Warning.crossModule (topDirs files).length (sortStr (topDirs files))]
    else []
  let w3 :=
    if complexity_keywords.any (fun kw => hasSub kw desc_lower) &&
        simple_fix_keywords.any (fun kw => hasSub kw desc_lower) then
      [Warning.complexityForSimpleFix
        (complexity_keywords.filter (fun kw => hasSub kw desc_lower))]
    else []
  w1 ++ w2 ++ w3

/-- The function `_analyze_scope_impl` of
`src/integration_specialist_tool.py` (lines 98-140). -/
def analyze_scope_impl (files : List Str) (description : Str) :
    Except ScopeViolationError ScopeDecision :=
  let file_count := files.length
  if 10 < file_count then
    Except.error { file_count := file_count, max_allowed := 10 }
  else
    let scope_level :=
      if file_count ≤ 3 then ScopeTier.LOCAL
      else if file_count ≤ 5 then ScopeTier.MODERATE
      else ScopeTier.EXTENSIVE
    let warnings := detect_anti_patterns files description
    let warnings :=
      if scope_level = ScopeTier.MODERATE ∨ scope_level = ScopeTier.EXTENSIVE then
        Warning.scopeAdvisory scope_level :: warnings
      else warnings
    Except.ok { approved := true, scope_level := scope_level,
                file_count := file_count, warnings := warnings, files := files }

end IntegrationTool

theorem mem_check1_iff (files : List Str) (dl : Str) (w : Warning) :
    w ∈ ScopeValidator.check1 files dl ↔
      (ScopeValidator.ui_keywords.any (fun keyword => hasSub keyword dl) = true ∧
       ScopeValidator.infra_found files ≠ [] ∧
       w = Warning.infraForUI (ScopeValidator.infra_found files)) := by
  unfold ScopeValidator.check1
  by_cases hkw : ScopeValidator.ui_keywords.any (fun keyword => hasSub keyword dl) = true
  · rw [if_pos hkw]
    by_cases he : (ScopeValidator.infra_found files).isEmpty = true
    · rw [if_pos he]
      simp_all [List.isEmpty_iff]
    · rw [if_neg he]
      simp_all [List.isEmpty_iff]
  · rw [if_neg hkw]
    simp_all

theorem mem_check2_iff (files : List Str) (w : Warning) :
    w ∈ ScopeValidator.check2 files ↔
      (3 < (topDirs files).length ∧
       w = Warning.crossModule (topDirs files).length (sortStr (topDirs files))) := by
  unfold ScopeValidator.check2
  split <;> simp_all

theorem mem_check3_iff (dl : Str) (w : Warning) :
    w ∈ ScopeValidator.check3 dl ↔
      ((ScopeValidator.complexity_keywords.any (fun kw => hasSub kw dl) &&
        ScopeValidator.simple_fix_keywords.any (fun kw => hasSub kw dl)) = true ∧
       w = Warning.complexityForSimpleFix
         (ScopeValidator.complexity_keywords.filter (fun kw => hasSub kw dl))) := by
  unfold ScopeValidator.check3
  by_cases hc : (ScopeValidator.complexity_keywords.any (fun kw => hasSub kw dl) &&
      ScopeValidator.simple_fix_keywords.any (fun kw => hasSub kw dl)) = true
  · rw [if_pos hc]
    simp [hc]
  · rw [if_neg hc]
    simp [hc]

theorem mem_detect_iff (files : List Str) (d : Str) (w : Warning) :
    w ∈ ScopeValidator.detect_anti_patterns files d ↔
      (w ∈ ScopeValidator.check1 files (pyLower d) ∨
       w ∈ ScopeValidator.check2 files ∨
       w ∈ ScopeValidator.check3 (pyLower d)) := by
  unfold ScopeValidator.detect_anti_patterns
  simp [List.mem_append]

theorem infra_found_ne_nil_iff (files : List Str) :
    ScopeValidator.infra_found files ≠ [] ↔
      ∃ f ∈ files, ∃ m ∈ ScopeValidator.INFRASTRUCTURE_FILES, hasSub m f = true := by
  unfold ScopeValidator.infra_found
  rw [Ne, List.filter_eq_nil_iff]
  simp [List.any_eq_true]

example :
    ScopeValidator.analyze_scope
      [str ("src/components/Button.css"), str ("src/components/Header.css")]
      (str ("Fix button alignment in header")) =
    Except.ok { approved := true, scope_level := ScopeTier.LOCAL,
                file_count := 2, warnings := [],
                files := [str ("src/components/Button.css"),
                          str ("src/components/Header.css")] } := by decide

example :
    ScopeValidator.analyze_scope
      [str ("src/components/Button.css"), str ("Dockerfile"), str ("docker-compose.yml")]
      (str ("Fix CSS button alignment")) =
    Except.ok { approved := true, scope_level := ScopeTier.LOCAL,
                file_count := 3,
                warnings := [Warning.infraForUI
                  [str ("Dockerfile"), str ("docker-compose.yml")]],
                files := [str ("src/components/Button.css"),
                          str ("Dockerfile"), str ("docker-compose.yml")] } := by decide

/-- C1: analyze_scope raises a ScopeViolation carrying fileCount = |files|
and maxAllowed = 10 if and only if |files| > 10; when |files| <= 10 it
returns a decision with approved = true, and no decision is produced on
the violation path. -/
theorem analyze_scope_violation_iff (files : List Str) (d : Str) :
    (10 < files.length →
      ScopeValidator.analyze_scope files d =
        Except.error { file_count := files.length, max_allowed := 10 }) ∧
    (files.length ≤ 10 →
      ∃ dec, ScopeValidator.analyze_scope files d = Except.ok dec ∧
        dec.approved = true) ∧
    (∀ e, ScopeValidator.analyze_scope files d = Except.error e →
      10 < files.length ∧ e.file_count = files.length ∧ e.max_allowed = 10) := by
  by_cases h : 10 < files.length
  · refine ⟨fun _ => by simp [ScopeValidator.analyze_scope, h], fun hle => absurd h (by omega), ?_⟩
    intro e he
    simp [ScopeValidator.analyze_scope, h] at he
    simp [← he, h]
  · refine ⟨fun hgt => absurd hgt h, fun _ => ?_, ?_⟩
    · unfold ScopeValidator.analyze_scope
      rw [if_neg h]
      exact ⟨_, rfl, rfl⟩
    · intro e he
      simp [ScopeValidator.analyze_scope, h] at he

/-- Witness for C1 at both sides of the threshold: 11 identical files are
blocked with the structured fields, one file is approved. -/
theorem analyze_scope_violation_iff_witness :
    ScopeValidator.analyze_scope (List.replicate 11 (str ("f"))) (str ("d")) =
      Except.error { file_count := (List.replicate 11 (str ("f"))).length,
                     max_allowed := 10 } ∧
    ∃ dec, ScopeValidator.analyze_scope [str ("f")] (str ("d")) = Except.ok dec ∧
      dec.approved = true :=
  ⟨(analyze_scope_violation_iff (List.replicate 11 (str ("f"))) (str ("d"))).1 (by decide),
   (analyze_scope_violation_iff [str ("f")] (str ("d"))).2.1 (by decide)⟩

/-- C2: for at most 10 files the scope tier is determined solely by the
file count n (duplicates counted, the description and path contents are
ignored): n in [0,3] gives LOCAL, n in [4,5] gives MODERATE, n in [6,10]
gives EXTENSIVE; the empty list is not special-cased and yields
fileCount = 0 with tier LOCAL. -/
theorem scope_tier_thresholds (files : List Str) (d : Str)
    (h : files.length ≤ 10) :
    ∃ dec, ScopeValidator.analyze_scope files d = Except.ok dec ∧
      dec.file_count = files.length ∧
      (files.length ≤ 3 → dec.scope_level = ScopeTier.LOCAL) ∧
      (4 ≤ files.length → files.length ≤ 5 → dec.scope_level = ScopeTier.MODERATE) ∧
      (6 ≤ files.length → dec.scope_level = ScopeTier.EXTENSIVE) := by
  unfold ScopeValidator.analyze_scope
  rw [if_neg (by omega : ¬10 < files.length)]
  refine ⟨_, rfl, rfl, ?_, ?_, ?_⟩
  · intro h3
    simp [h3]
  · intro h4 h5
    rw [if_neg (by omega : ¬files.length ≤ 3), if_pos h5]
  · intro h6
    rw [if_neg (by omega : ¬files.length ≤ 3), if_neg (by omega : ¬files.length ≤ 5)]

/-- Witness for C2 on the empty list: fileCount 0, tier LOCAL. -/
theorem scope_tier_thresholds_witness :
    ∃ dec, ScopeValidator.analyze_scope [] (str ("anything")) = Except.ok dec ∧
      dec.file_count = 0 ∧
      (0 ≤ 3 → dec.scope_level = ScopeTier.LOCAL) ∧
      (4 ≤ 0 → 0 ≤ 5 → dec.scope_level = ScopeTier.MODERATE) ∧
      (6 ≤ 0 → dec.scope_level = ScopeTier.EXTENSIVE) := by
  have h := scope_tier_thresholds [] (str ("anything")) (by decide)
  simpa using h

/-- C7: the decision's files field echoes the input list exactly (same
elements, same order, duplicates preserved) and file_count is its length. -/
theorem decision_echoes_files (files : List Str) (d : Str)
    (h : files.length ≤ 10) :
    ∃ dec, ScopeValidator.analyze_scope files d = Except.ok dec ∧
      dec.files = files ∧ dec.file_count = files.length := by
  unfold ScopeValidator.analyze_scope
  rw [if_neg (by omega : ¬10 < files.length)]
  exact ⟨_, rfl, rfl, rfl⟩

/-- Witness for C7 with a duplicated file entry. -/
theorem decision_echoes_files_witness :
    ∃ dec, ScopeValidator.analyze_scope
        [str ("a.py"), str ("a.py"), str ("b.py")] (str ("dup")) = Except.ok dec ∧
      dec.files = [str ("a.py"), str ("a.py"), str ("b.py")] ∧
      dec.file_count = [str ("a.py"), str ("a.py"), str ("b.py")].length :=
  decision_echoes_files [str ("a.py"), str ("a.py"), str ("b.py")] (str ("dup"))
    (by decide)

/-- C9: analyze_scope is deterministic: identical inputs give identical
outcomes (equal decision records, or violations with equal structured
fields), however often the call is repeated. -/
theorem analyze_scope_deterministic (f1 f2 : List Str) (d1 d2 : Str)
    (hf : f1 = f2) (hd : d1 = d2) :
    ScopeValidator.analyze_scope f1 d1 = ScopeValidator.analyze_scope f2 d2 := by
  subst hf
  subst hd
  rfl

/-- Witness for C9 at a concrete repeated call. -/
theorem analyze_scope_deterministic_witness :
    ScopeValidator.analyze_scope [str ("m.py")] (str ("fix")) =
      ScopeValidator.analyze_scope [str ("m.py")] (str ("fix")) :=
  analyze_scope_deterministic [str ("m.py")] [str ("m.py")]
    (str ("fix")) (str ("fix")) rfl rfl

/-- C6: on the approval path the warnings sequence is assembled in a fixed
order: the scope-tier advisory (present exactly when the tier is MODERATE
or EXTENSIVE, absent for LOCAL) first, then the anti-pattern warnings in
check order 1, 2, 3; all applicable warnings are emitted independently. -/
theorem warnings_assembly_order (files : List Str) (d : Str)
    (h : files.length ≤ 10) :
    ∃ dec, ScopeValidator.analyze_scope files d = Except.ok dec ∧
      dec.warnings =
        (if dec.scope_level = ScopeTier.LOCAL then []
         else [Warning.scopeAdvisory dec.scope_level]) ++
        ScopeValidator.check1 files (pyLower d) ++
        ScopeValidator.check2 files ++
        ScopeValidator.check3 (pyLower d) := by
  unfold ScopeValidator.analyze_scope
  rw [if_neg (by omega : ¬10 < files.length)]
  refine ⟨_, rfl, ?_⟩
  by_cases h3 : files.length ≤ 3
  · simp [h3, ScopeValidator.detect_anti_patterns]
  · by_cases h5 : files.length ≤ 5
    · simp [h3, h5, ScopeValidator.detect_anti_patterns]
    · simp [h3, h5, ScopeValidator.detect_anti_patterns]

/-- Witness for C6 on a MODERATE call that also fires the cross-module
check. -/
theorem warnings_assembly_order_witness :
    ∃ dec, ScopeValidator.analyze_scope
        [str ("a/x"), str ("b/x"), str ("c/x"), str ("d/x")] (str ("update")) =
        Except.ok dec ∧
      dec.warnings =
        (if dec.scope_level = ScopeTier.LOCAL then []
         else [Warning.scopeAdvisory dec.scope_level]) ++
        ScopeValidator.check1 [str ("a/x"), str ("b/x"), str ("c/x"), str ("d/x")]
          (pyLower (str ("update"))) ++
        ScopeValidator.check2 [str ("a/x"), str ("b/x"), str ("c/x"), str ("d/x")] ++
        ScopeValidator.check3 (pyLower (str ("update"))) :=
  warnings_assembly_order [str ("a/x"), str ("b/x"), str ("c/x"), str ("d/x")]
    (str ("update")) (by decide)

/-- C8: analyze_scope of scope_validator.py and _analyze_scope_impl of
integration_specialist_tool.py are extensionally equal: equal decisions on
every approved input, and violations with equal structured fields on
exactly the same inputs. -/
theorem implementations_agree (files : List Str) (d : Str) :
    ScopeValidator.analyze_scope files d =
      (IntegrationTool.analyze_scope_impl files d).mapError
        (fun e => { file_count := e.file_count, max_allowed := e.max_allowed }) := by
  have hdet : ScopeValidator.detect_anti_patterns files d =
      IntegrationTool.detect_anti_patterns files d := rfl
  by_cases h : 10 < files.length
  · simp [ScopeValidator.analyze_scope, IntegrationTool.analyze_scope_impl, h,
      Except.mapError]
  · simp [ScopeValidator.analyze_scope, IntegrationTool.analyze_scope_impl, h,
      Except.mapError, hdet]

/-- C3: the infrastructure-for-UI check warns iff the lower-cased
description contains some UI keyword and some file path contains some of
the eleven infrastructure markers as a substring; the warning names
exactly the matched files, in input order. -/
theorem infra_ui_warning_iff (files : List Str) (d : Str) :
    ((∃ ms, Warning.infraForUI ms ∈ ScopeValidator.detect_anti_patterns files d) ↔
      ((∃ kw ∈ ScopeValidator.ui_keywords, hasSub kw (pyLower d) = true) ∧
       ∃ f ∈ files, ∃ m ∈ ScopeValidator.INFRASTRUCTURE_FILES, hasSub m f = true)) ∧
    (∀ ms, Warning.infraForUI ms ∈ ScopeValidator.detect_anti_patterns files d →
      ms = files.filter (fun f =>
        ScopeValidator.INFRASTRUCTURE_FILES.any (fun infra => hasSub infra f))) := by
  constructor
  · constructor
    · rintro ⟨ms, hm⟩
      rw [mem_detect_iff] at hm
      rcases hm with h1 | h2 | h3
      · rw [mem_check1_iff] at h1
        obtain ⟨hkw, hne, -⟩ := h1
        exact ⟨by simpa [List.any_eq_true] using hkw,
               (infra_found_ne_nil_iff files).mp hne⟩
      · rw [mem_check2_iff] at h2
        exact absurd h2.2 (by simp)
      · rw [mem_check3_iff] at h3
        exact absurd h3.2 (by simp)
    · rintro ⟨hkw, hex⟩
      refine ⟨ScopeValidator.infra_found files, ?_⟩
      rw [mem_detect_iff]
      left
      rw [mem_check1_iff]
      exact ⟨by simpa [List.any_eq_true] using hkw,
             (infra_found_ne_nil_iff files).mpr hex, rfl⟩
  · intro ms hm
    rw [mem_detect_iff] at hm
    rcases hm with h1 | h2 | h3
    · rw [mem_check1_iff] at h1
      have h := h1.2.2
      simpa [ScopeValidator.infra_found] using h
    · rw [mem_check2_iff] at h2
      exact absurd h2.2 (by simp)
    · rw [mem_check3_iff] at h3
      exact absurd h3.2 (by simp)

/-- Witness for C3 at the spec's scenario: a Dockerfile touched for a CSS
change produces the infrastructure-for-UI warning. -/
theorem infra_ui_warning_iff_witness :
    ∃ ms, Warning.infraForUI ms ∈
      ScopeValidator.detect_anti_patterns
        [str ("src/app.css"), str ("Dockerfile")] (str ("Fix CSS layout")) :=
  (infra_ui_warning_iff [str ("src/app.css"), str ("Dockerfile")]
    (str ("Fix CSS layout"))).1.mpr (by decide)

/-- C4: the cross-module check collects, for each path containing a slash,
its first slash-separated segment, and warns iff the number of distinct
tokens exceeds 3; the warning carries that number and all distinct modules
sorted lexicographically. -/
theorem cross_module_warning_iff (files : List Str) (d : Str) :
    ((∃ n ms, Warning.crossModule n ms ∈
        ScopeValidator.detect_anti_patterns files d) ↔
      3 < (topDirs files).length) ∧
    (∀ n ms, Warning.crossModule n ms ∈
        ScopeValidator.detect_anti_patterns files d →
      n = (topDirs files).length ∧ ms.Perm (topDirs files) ∧
        ms.Sorted (fun a b => strLe a b = true)) ∧
    (∀ t, t ∈ topDirs files ↔
      ∃ f ∈ files, ('/' ∈ f) ∧ t = f.takeWhile (fun c => c ≠ '/')) ∧
    (topDirs files).Nodup := by
  refine ⟨⟨?_, ?_⟩, ?_, mem_topDirs_iff files, nodup_topDirs files⟩
  · rintro ⟨n, ms, hm⟩
    rw [mem_detect_iff] at hm
    rcases hm with h1 | h2 | h3
    · rw [mem_check1_iff] at h1
      exact absurd h1.2.2 (by simp)
    · rw [mem_check2_iff] at h2
      exact h2.1
    · rw [mem_check3_iff] at h3
      exact absurd h3.2 (by simp)
  · intro hlen
    refine ⟨(topDirs files).length, sortStr (topDirs files), ?_⟩
    rw [mem_detect_iff]
    right
    left
    rw [mem_check2_iff]
    exact ⟨hlen, rfl⟩
  · intro n ms hm
    rw [mem_detect_iff] at hm
    rcases hm with h1 | h2 | h3
    · rw [mem_check1_iff] at h1
      exact absurd h1.2.2 (by simp)
    · rw [mem_check2_iff] at h2
      obtain ⟨-, heq⟩ := h2
      injection heq with hn hms
      subst hn
      subst hms
      exact ⟨rfl, sortStr_perm _, sortStr_sorted _⟩
    · rw [mem_check3_iff] at h3
      exact absurd h3.2 (by simp)

/-- Witness for C4 at the spec's scenario of 4 distinct top-level
segments. -/
theorem cross_module_warning_iff_witness :
    ∃ n ms, Warning.crossModule n ms ∈
      ScopeValidator.detect_anti_patterns
        [str ("a/x"), str ("b/x"), str ("c/x"), str ("d/x")] (str ("update")) :=
  (cross_module_warning_iff [str ("a/x"), str ("b/x"), str ("c/x"), str ("d/x")]
    (str ("update"))).1.mpr (by decide)

/-- C5: the complexity-for-simple-fix check warns iff the lower-cased
description contains some complexity keyword and also some simple-fix
keyword; it never fires on one keyword set alone, and the warning names
the matched complexity keywords. -/
theorem complexity_simple_fix_warning_iff (files : List Str) (d : Str) :
    ((∃ kws, Warning.complexityForSimpleFix kws ∈
        ScopeValidator.detect_anti_patterns files d) ↔
      ((∃ kw ∈ ScopeValidator.complexity_keywords, hasSub kw (pyLower d) = true) ∧
       (∃ kw ∈ ScopeValidator.simple_fix_keywords, hasSub kw (pyLower d) = true))) ∧
    (∀ kws, Warning.complexityForSimpleFix kws ∈
        ScopeValidator.detect_anti_patterns files d →
      kws = ScopeValidator.complexity_keywords.filter
        (fun kw => hasSub kw (pyLower d))) := by
  constructor
  · constructor
    · rintro ⟨kws, hm⟩
      rw [mem_detect_iff] at hm
      rcases hm with h1 | h2 | h3
      · rw [mem_check1_iff] at h1
        exact absurd h1.2.2 (by simp)
      · rw [mem_check2_iff] at h2
        exact absurd h2.2 (by simp)
      · rw [mem_check3_iff] at h3
        have hb := h3.1
        rw [Bool.and_eq_true] at hb
        exact ⟨by simpa [List.any_eq_true] using hb.1,
               by simpa [List.any_eq_true] using hb.2⟩
    · rintro ⟨hc, hs⟩
      refine ⟨ScopeValidator.complexity_keywords.filter
        (fun kw => hasSub kw (pyLower d)), ?_⟩
      rw [mem_detect_iff]
      right
      right
      rw [mem_check3_iff]
      refine ⟨?_, rfl⟩
      rw [Bool.and_eq_true]
      exact ⟨by simpa [List.any_eq_true] using hc,
             by simpa [List.any_eq_true] using hs⟩
  · intro kws hm
    rw [mem_detect_iff] at hm
    rcases hm with h1 | h2 | h3
    · rw [mem_check1_iff] at h1
      exact absurd h1.2.2 (by simp)
    · rw [mem_check2_iff] at h2
      exact absurd h2.2 (by simp)
    · rw [mem_check3_iff] at h3
      injection h3.2 with hk

/-- Witness for C5 at the spec's scenario description. -/
theorem complexity_simple_fix_warning_iff_witness :
    ∃ kws, Warning.complexityForSimpleFix kws ∈
      ScopeValidator.detect_anti_patterns []
        (str ("fix: refactor with factory pattern")) :=
  (complexity_simple_fix_warning_iff []
    (str ("fix: refactor with factory pattern"))).1.mpr (by decide)

/-- C10: infrastructure-marker matching against file paths is
case-sensitive while description-keyword matching is case-insensitive:
a path spelled "dockerfile" or "DOCKERFILE" never triggers the
infrastructure-for-UI warning, the exact-case "Dockerfile" does, and the
detector's output depends on the description only through its
lower-casing. -/
theorem description_case_vs_path_case :
    (∀ (files : List Str) (d1 d2 : Str), pyLower d1 = pyLower d2 →
      ScopeValidator.detect_anti_patterns files d1 =
        ScopeValidator.detect_anti_patterns files d2) ∧
    (∀ (d : Str) (ms : List Str),
      Warning.infraForUI ms ∉
        ScopeValidator.detect_anti_patterns
          [str ("dockerfile"), str ("DOCKERFILE")] d) ∧
    (ScopeValidator.detect_anti_patterns [str ("Dockerfile")] (str ("CSS")) =
      [Warning.infraForUI [str ("Dockerfile")]]) := by
  refine ⟨?_, ?_, by decide⟩
  · intro files d1 d2 hld
    unfold ScopeValidator.detect_anti_patterns
    rw [hld]
  · intro d ms hm
    rw [mem_detect_iff] at hm
    rcases hm with h1 | h2 | h3
    · rw [mem_check1_iff] at h1
      exact h1.2.1 (by decide)
    · rw [mem_check2_iff] at h2
      exact absurd h2.2 (by simp)
    · rw [mem_check3_iff] at h3
      exact absurd h3.2 (by simp)

/-- Witness for C10: an upper-case and a lower-case description behave
identically. -/
theorem description_case_vs_path_case_witness :
    ScopeValidator.detect_anti_patterns [str ("Dockerfile")] (str ("CSS Fix")) =
      ScopeValidator.detect_anti_patterns [str ("Dockerfile")] (str ("css fix")) :=
  description_case_vs_path_case.1 [str ("Dockerfile")]
    (str ("CSS Fix")) (str ("css fix")) (by decide)
